import Mathlib

/-!
Shallow embedding of libnetconf's public session/message engine interface
(src/netconf.h) together with the behaviour documented for it, and proofs
of the stated properties.

The enumerations below are transcribed directly from src/netconf.h; each
carries a `toInt` map reproducing the C enumerator values where the header
assigns them explicitly.  The header only declares the engine's functions,
so each behavioural function is modelled from the specification text and
marked as such in its doc comment.
-/

namespace Libnetconf

/-- Transcription of `NC_SESSION_STATUS` (src/netconf.h lines 104-111). -/
inductive NC_SESSION_STATUS where
  | NC_SESSION_STATUS_ERROR
  | NC_SESSION_STATUS_STARTUP
  | NC_SESSION_STATUS_WORKING
  | NC_SESSION_STATUS_CLOSING
  | NC_SESSION_STATUS_CLOSED
  | NC_SESSION_STATUS_DUMMY
deriving DecidableEq

/-- Enumerator values assigned in the header. -/
def NC_SESSION_STATUS.toInt : NC_SESSION_STATUS → Int
  | .NC_SESSION_STATUS_ERROR => -1
  | .NC_SESSION_STATUS_STARTUP => 0
  | .NC_SESSION_STATUS_WORKING => 1
  | .NC_SESSION_STATUS_CLOSING => 2
  | .NC_SESSION_STATUS_CLOSED => 3
  | .NC_SESSION_STATUS_DUMMY => 4

/-- Transcription of `NC_SESSION_TERM_REASON` (src/netconf.h lines 118-125). -/
inductive NC_SESSION_TERM_REASON where
  | NC_SESSION_TERM_CLOSED
  | NC_SESSION_TERM_KILLED
  | NC_SESSION_TERM_DROPPED
  | NC_SESSION_TERM_TIMEOUT
  | NC_SESSION_TERM_BADHELLO
  | NC_SESSION_TERM_OTHER
deriving DecidableEq, Fintype

/-- Transcription of `NC_MSG_TYPE` (src/netconf.h lines 131-139). -/
inductive NC_MSG_TYPE where
  | NC_MSG_UNKNOWN
  | NC_MSG_WOULDBLOCK
  | NC_MSG_NONE
  | NC_MSG_HELLO
  | NC_MSG_RPC
  | NC_MSG_REPLY
  | NC_MSG_NOTIFICATION

/-- Enumerator values: implicit 0..5, with `NC_MSG_NOTIFICATION = -5`. -/
def NC_MSG_TYPE.toInt : NC_MSG_TYPE → Int
  | .NC_MSG_UNKNOWN => 0
  | .NC_MSG_WOULDBLOCK => 1
  | .NC_MSG_NONE => 2
  | .NC_MSG_HELLO => 3
  | .NC_MSG_RPC => 4
  | .NC_MSG_REPLY => 5
  | .NC_MSG_NOTIFICATION => -5

/-- Transcription of `NC_REPLY_TYPE` (src/netconf.h lines 145-151). -/
inductive NC_REPLY_TYPE where
  | NC_REPLY_UNKNOWN
  | NC_REPLY_HELLO
  | NC_REPLY_OK
  | NC_REPLY_ERROR
  | NC_REPLY_DATA

/-- Transcription of `NC_RPC_TYPE` (src/netconf.h lines 157-163). -/
inductive NC_RPC_TYPE where
  | NC_RPC_UNKNOWN
  | NC_RPC_HELLO
  | NC_RPC_DATASTORE_READ
  | NC_RPC_DATASTORE_WRITE
  | NC_RPC_SESSION
deriving DecidableEq, Fintype

/-- Transcription of `NC_NOTIF_TYPE` (src/netconf.h lines 165-168). -/
inductive NC_NOTIF_TYPE where
  | NC_NTF_UNKNOWN
  | NC_NTF_BASE

/-- Transcription of `NC_OP` (src/netconf.h lines 174-189). -/
inductive NC_OP where
  | NC_OP_UNKNOWN
  | NC_OP_GETCONFIG
  | NC_OP_GET
  | NC_OP_EDITCONFIG
  | NC_OP_CLOSESESSION
  | NC_OP_KILLSESSION
  | NC_OP_COPYCONFIG
  | NC_OP_DELETECONFIG
  | NC_OP_LOCK
  | NC_OP_UNLOCK
  | NC_OP_COMMIT
  | NC_OP_DISCARDCHANGES
  | NC_OP_CREATESUBSCRIPTION
  | NC_OP_GETSCHEMA

/-- Transcription of `NC_DATASTORE_TYPE` (src/netconf.h lines 254-261). -/
inductive NC_DATASTORE where
  | NC_DATASTORE_ERROR
  | NC_DATASTORE_CONFIG
  | NC_DATASTORE_URL
  | NC_DATASTORE_RUNNING
  | NC_DATASTORE_STARTUP
  | NC_DATASTORE_CANDIDATE

/-- Transcription of `NC_EDIT_OP_TYPE` (src/netconf.h lines 273-280). -/
inductive NC_EDIT_OP_TYPE where
  | NC_EDIT_OP_ERROR
  | NC_EDIT_OP_MERGE
  | NC_EDIT_OP_REPLACE
  | NC_EDIT_OP_CREATE
  | NC_EDIT_OP_DELETE
  | NC_EDIT_OP_REMOVE

/-- Enumerator values assigned in the header: -1, 1, 2, then implicit 3, 4, 5. -/
def NC_EDIT_OP_TYPE.toInt : NC_EDIT_OP_TYPE → Int
  | .NC_EDIT_OP_ERROR => -1
  | .NC_EDIT_OP_MERGE => 1
  | .NC_EDIT_OP_REPLACE => 2
  | .NC_EDIT_OP_CREATE => 3
  | .NC_EDIT_OP_DELETE => 4
  | .NC_EDIT_OP_REMOVE => 5

/-- Transcription of `NC_EDIT_DEFOP_TYPE` (src/netconf.h lines 282-288). -/
inductive NC_EDIT_DEFOP_TYPE where
  | NC_EDIT_DEFOP_ERROR
  | NC_EDIT_DEFOP_NOTSET
  | NC_EDIT_DEFOP_MERGE
  | NC_EDIT_DEFOP_REPLACE
  | NC_EDIT_DEFOP_NONE
deriving DecidableEq, Fintype

/-- Enumerator values assigned in the header. -/
def NC_EDIT_DEFOP_TYPE.toInt : NC_EDIT_DEFOP_TYPE → Int
  | .NC_EDIT_DEFOP_ERROR => -1
  | .NC_EDIT_DEFOP_NOTSET => 0
  | .NC_EDIT_DEFOP_MERGE => 1
  | .NC_EDIT_DEFOP_REPLACE => 2
  | .NC_EDIT_DEFOP_NONE => 3

/-- Transcription of `NC_EDIT_ERROPT_TYPE` (src/netconf.h lines 290-296). -/
inductive NC_EDIT_ERROPT_TYPE where
  | NC_EDIT_ERROPT_ERROR
  | NC_EDIT_ERROPT_NOTSET
  | NC_EDIT_ERROPT_STOP
  | NC_EDIT_ERROPT_CONT
  | NC_EDIT_ERROPT_ROLLBACK
deriving DecidableEq, Fintype

/-- Enumerator values assigned in the header. -/
def NC_EDIT_ERROPT_TYPE.toInt : NC_EDIT_ERROPT_TYPE → Int
  | .NC_EDIT_ERROPT_ERROR => -1
  | .NC_EDIT_ERROPT_NOTSET => 0
  | .NC_EDIT_ERROPT_STOP => 1
  | .NC_EDIT_ERROPT_CONT => 2
  | .NC_EDIT_ERROPT_ROLLBACK => 3

/-- Transcription of `NC_EDIT_TESTOPT_TYPE` (src/netconf.h lines 298-304). -/
inductive NC_EDIT_TESTOPT_TYPE where
  | NC_EDIT_TESTOPT_ERROR
  | NC_EDIT_TESTOPT_NOTSET
  | NC_EDIT_TESTOPT_TESTSET
  | NC_EDIT_TESTOPT_SET
  | NC_EDIT_TESTOPT_TEST
deriving DecidableEq, Fintype

/-- Enumerator values assigned in the header. -/
def NC_EDIT_TESTOPT_TYPE.toInt : NC_EDIT_TESTOPT_TYPE → Int
  | .NC_EDIT_TESTOPT_ERROR => -1
  | .NC_EDIT_TESTOPT_NOTSET => 0
  | .NC_EDIT_TESTOPT_TESTSET => 1
  | .NC_EDIT_TESTOPT_SET => 2
  | .NC_EDIT_TESTOPT_TEST => 3

/-- Transcription of `NCWD_MODE` (src/netconf.h lines 306-312). -/
inductive NCWD_MODE where
  | NCWD_MODE_NOTSET
  | NCWD_MODE_ALL
  | NCWD_MODE_TRIM
  | NCWD_MODE_EXPLICIT
  | NCWD_MODE_ALL_TAGGED

/-- Enumerator values assigned in the header (a bitmask-style encoding). -/
def NCWD_MODE.toInt : NCWD_MODE → Int
  | .NCWD_MODE_NOTSET => 0
  | .NCWD_MODE_ALL => 1
  | .NCWD_MODE_TRIM => 2
  | .NCWD_MODE_EXPLICIT => 4
  | .NCWD_MODE_ALL_TAGGED => 8

/-- Transcription of `NC_VERB_LEVEL` (src/netconf.h lines 322-327). -/
inductive NC_VERB_LEVEL where
  | NC_VERB_ERROR
  | NC_VERB_WARNING
  | NC_VERB_VERBOSE
  | NC_VERB_DEBUG

/-- `NC_INIT_NOTIF` flag value (src/netconf.h line 349). -/
def NC_INIT_NOTIF : Nat := 0x00000002

/-- `NC_INIT_NACM` flag value (src/netconf.h line 350). -/
def NC_INIT_NACM : Nat := 0x00000004

/-! ### Session state machine (spec section 4.1) -/

/-- Events that drive the session state machine, as described in spec
section 4.1: a successful hello exchange, a failed hello exchange, a close
trigger (close-session, kill-session, transport drop or inactivity timeout,
each recording its termination reason), completion of resource cleanup, and
an unrecoverable internal fault. -/
inductive SessionEvent where
  | helloOk
  | helloFail
  | closeRequest (reason : NC_SESSION_TERM_REASON)
  | cleanupDone
  | internalFault

/-- Modelled from the spec: the session lifecycle transition function of
section 4.1 (the implementation behind `struct nc_session` is not in the
header).  `none` means the event causes no status change.  Startup moves to
Working on a valid hello and to Closed on an invalid one; Working moves to
Closing on any close trigger; Closing moves to Closed once cleanup
completes; an internal fault moves any live session to Error; Dummy
sessions hold metadata only and never transition. -/
def sessionStep (s : NC_SESSION_STATUS) (e : SessionEvent) :
    Option NC_SESSION_STATUS :=
  match s, e with
  | .NC_SESSION_STATUS_DUMMY, _ => none
  | _, .internalFault => some .NC_SESSION_STATUS_ERROR
  | .NC_SESSION_STATUS_STARTUP, .helloOk => some .NC_SESSION_STATUS_WORKING
  | .NC_SESSION_STATUS_STARTUP, .helloFail => some .NC_SESSION_STATUS_CLOSED
  | .NC_SESSION_STATUS_WORKING, .closeRequest _ => some .NC_SESSION_STATUS_CLOSING
  | .NC_SESSION_STATUS_CLOSING, .cleanupDone => some .NC_SESSION_STATUS_CLOSED
  | _, _ => none

/-- The transition edges named in spec section 4.1: Startup to Working,
Startup to Closed, Working to Closing, Closing to Closed, and any state to
Error. -/
def sessionEdgeAllowed (a b : NC_SESSION_STATUS) : Bool :=
  (a = .NC_SESSION_STATUS_STARTUP && b = .NC_SESSION_STATUS_WORKING) ||
  (a = .NC_SESSION_STATUS_STARTUP && b = .NC_SESSION_STATUS_CLOSED) ||
  (a = .NC_SESSION_STATUS_WORKING && b = .NC_SESSION_STATUS_CLOSING) ||
  (a = .NC_SESSION_STATUS_CLOSING && b = .NC_SESSION_STATUS_CLOSED) ||
  (b = .NC_SESSION_STATUS_ERROR)

/-! ### Process-wide subsystem lifecycle (spec section 4.5, `nc_init` /
`nc_close`) -/

/-- Modelled from the spec: the cross-process shared state behind
`nc_init`/`nc_close` (their implementation is not in the header): a
reference count of participants persisted outside any single process. -/
structure SharedState where
  refs : Int

/-- Modelled from the spec: `nc_init` (src/netconf.h line 348, body not in
the header).  `fatal` models an unrecoverable environment failure, in which
case -1 is returned and the shared state is untouched.  Otherwise the call
registers the participant: it returns 0 when it is the first initializer
since the last system-wide close (shared count was zero) and 1 when someone
else already initialized. -/
def ncInit (fatal : Bool) (st : SharedState) : Int × SharedState :=
  if fatal then (-1, st)
  else if st.refs = 0 then (0, { refs := 1 })
  else (1, { refs := st.refs + 1 })

/-- Run a sequence of `nc_init` calls (each flagged fatal or not) from a
shared state, collecting the return codes. -/
def runInits : List Bool → SharedState → List Int
  | [], _ => []
  | f :: rest, st =>
    let r := ncInit f st
    r.1 :: runInits rest r.2

/-- Modelled from the spec: the per-participant view of the teardown state:
whether this participant still holds its local reference in the shared
structures, together with the shared reference count. -/
structure CloseState where
  registered : Bool
  refs : Int

/-- Modelled from the spec: `nc_close` (src/netconf.h line 374, body not in
the header).  The call always releases the calling participant's local
reference: if the participant is still registered the shared count is
decremented, otherwise there is nothing left to release and the count is
untouched.  When `system` is requested, system-wide teardown happens only
if no other participant remains (return 0), otherwise return 1; a local
close returns 0. -/
def ncClose (system : Bool) (st : CloseState) : Int × CloseState :=
  let st1 : CloseState :=
    if st.registered then { registered := false, refs := st.refs - 1 }
    else st
  let code : Int :=
    if system then (if st1.refs > 0 then 1 else 0) else 0
  (code, st1)

/-- Modelled from the spec: the NACM gating state of section 4.5: whether
the access-control subsystem was requested at initialization
(`NC_INIT_NACM` in the `nc_init` flags) and the recovery principal's uid. -/
structure NacmState where
  nacmEnabled : Bool
  recoveryUid : Nat

/-- Modelled from the spec: the NACM gating state established by
`nc_init(flags)`: the subsystem is enabled iff the `NC_INIT_NACM` bit is in
`flags`, and the recovery uid defaults to 0 (the typical root user). -/
def nacmInitState (flags : Nat) : NacmState :=
  { nacmEnabled := Nat.land flags NC_INIT_NACM ≠ 0, recoveryUid := 0 }

/-- Modelled from the spec: `nacm_recovery_uid` (src/netconf.h line 362,
body not in the header).  Sets the uid detecting the NACM recovery session;
it takes effect only if the `NC_INIT_NACM` flag was used in `nc_init`. -/
def nacm_recovery_uid (uid : Nat) (st : NacmState) : NacmState :=
  if st.nacmEnabled then { st with recoveryUid := uid } else st

/-- Modelled from the spec: the access-control gate.  `policy` stands for
the external NACM policy evaluator; the recovery principal bypasses it
entirely and is always permitted. -/
def nacmPermits (policy : Nat → NC_OP → Bool) (uid : Nat) (op : NC_OP)
    (st : NacmState) : Bool :=
  if uid = st.recoveryUid then true else policy uid op

/-! ### Operation resolver (spec section 4.4) -/

/-- Modelled from the spec: resolution of the optional `default-operation`
element of an edit-config request (the resolver's body is not in the
header).  An absent element resolves to `NC_EDIT_DEFOP_NOTSET`; the values
merge, replace and none resolve to their variants; a malformed value
resolves to the internal `NC_EDIT_DEFOP_ERROR`. -/
def resolveDefop (o : Option String) : NC_EDIT_DEFOP_TYPE :=
  match o with
  | none => .NC_EDIT_DEFOP_NOTSET
  | some s =>
    if s = "merge" then .NC_EDIT_DEFOP_MERGE
    else if s = "replace" then .NC_EDIT_DEFOP_REPLACE
    else if s = "none" then .NC_EDIT_DEFOP_NONE
    else .NC_EDIT_DEFOP_ERROR

/-- Modelled from the spec: resolution of the optional `error-option`
element of an edit-config request.  Absent resolves to
`NC_EDIT_ERROPT_NOTSET`; malformed to `NC_EDIT_ERROPT_ERROR`. -/
def resolveErropt (o : Option String) : NC_EDIT_ERROPT_TYPE :=
  match o with
  | none => .NC_EDIT_ERROPT_NOTSET
  | some s =>
    if s = "stop-on-error" then .NC_EDIT_ERROPT_STOP
    else if s = "continue-on-error" then .NC_EDIT_ERROPT_CONT
    else if s = "rollback-on-error" then .NC_EDIT_ERROPT_ROLLBACK
    else .NC_EDIT_ERROPT_ERROR

/-- Modelled from the spec: resolution of the optional `test-option`
element of an edit-config request.  Absent resolves to
`NC_EDIT_TESTOPT_NOTSET`; malformed to `NC_EDIT_TESTOPT_ERROR`. -/
def resolveTestopt (o : Option String) : NC_EDIT_TESTOPT_TYPE :=
  match o with
  | none => .NC_EDIT_TESTOPT_NOTSET
  | some s =>
    if s = "test-then-set" then .NC_EDIT_TESTOPT_TESTSET
    else if s = "set" then .NC_EDIT_TESTOPT_SET
    else if s = "test-only" then .NC_EDIT_TESTOPT_TEST
    else .NC_EDIT_TESTOPT_ERROR

/-- Modelled from the spec: edit-config policy resolution hands the
faithfully-resolved (default-operation, error-option, test-option) triple
to the datastore collaborator; the three elements are orthogonal. -/
def resolveEditPolicy (defop erropt testopt : Option String) :
    NC_EDIT_DEFOP_TYPE × NC_EDIT_ERROPT_TYPE × NC_EDIT_TESTOPT_TYPE :=
  (resolveDefop defop, resolveErropt erropt, resolveTestopt testopt)

/-- Modelled from the spec: selection of the `NC_OP` variant of a single
operation-indicating child by its element name; an unknown name resolves
to `NC_OP_UNKNOWN` as an ordinary value. -/
def opOfName (name : String) : NC_OP :=
  if name = "get-config" then .NC_OP_GETCONFIG
  else if name = "get" then .NC_OP_GET
  else if name = "edit-config" then .NC_OP_EDITCONFIG
  else if name = "close-session" then .NC_OP_CLOSESESSION
  else if name = "kill-session" then .NC_OP_KILLSESSION
  else if name = "copy-config" then .NC_OP_COPYCONFIG
  else if name = "delete-config" then .NC_OP_DELETECONFIG
  else if name = "lock" then .NC_OP_LOCK
  else if name = "unlock" then .NC_OP_UNLOCK
  else if name = "commit" then .NC_OP_COMMIT
  else if name = "discard-changes" then .NC_OP_DISCARDCHANGES
  else if name = "create-subscription" then .NC_OP_CREATESUBSCRIPTION
  else if name = "get-schema" then .NC_OP_GETSCHEMA
  else .NC_OP_UNKNOWN

/-- The element names `opOfName` recognizes. -/
def recognizedOpNames : List String :=
  ["get-config", "get", "edit-config", "close-session", "kill-session",
   "copy-config", "delete-config", "lock", "unlock", "commit",
   "discard-changes", "create-subscription", "get-schema"]

/-- Modelled from the spec: classification of an rpc message tree from the
list of its operation-indicating child element names.  Exactly one such
child is required: zero or multiple children is a classification failure
yielding the `NC_MSG_UNKNOWN` message value, an ordinary return value
rather than a fault; a single child classifies the message as
`NC_MSG_RPC` and selects the operation by name (unrecognized names
yielding `NC_OP_UNKNOWN`). -/
def classifyRpc (children : List String) : NC_MSG_TYPE × NC_OP :=
  match children with
  | [name] => (.NC_MSG_RPC, opOfName name)
  | _ => (.NC_MSG_UNKNOWN, .NC_OP_UNKNOWN)

/-- Modelled from the spec: the conceptual read/write/session-affecting
category of a resolved operation, expressed in the header's `NC_RPC_TYPE`.
The header's enumeration offers no separate notification-control value, so
create-subscription, a session-scoped subscription request, falls in the
session category. -/
def nc_rpc_get_type (op : NC_OP) : NC_RPC_TYPE :=
  match op with
  | .NC_OP_GET => .NC_RPC_DATASTORE_READ
  | .NC_OP_GETCONFIG => .NC_RPC_DATASTORE_READ
  | .NC_OP_GETSCHEMA => .NC_RPC_DATASTORE_READ
  | .NC_OP_EDITCONFIG => .NC_RPC_DATASTORE_WRITE
  | .NC_OP_COPYCONFIG => .NC_RPC_DATASTORE_WRITE
  | .NC_OP_DELETECONFIG => .NC_RPC_DATASTORE_WRITE
  | .NC_OP_COMMIT => .NC_RPC_DATASTORE_WRITE
  | .NC_OP_DISCARDCHANGES => .NC_RPC_DATASTORE_WRITE
  | .NC_OP_LOCK => .NC_RPC_DATASTORE_WRITE
  | .NC_OP_UNLOCK => .NC_RPC_DATASTORE_WRITE
  | .NC_OP_CLOSESESSION => .NC_RPC_SESSION
  | .NC_OP_KILLSESSION => .NC_RPC_SESSION
  | .NC_OP_CREATESUBSCRIPTION => .NC_RPC_SESSION
  | .NC_OP_UNKNOWN => .NC_RPC_UNKNOWN

/-! ### Capabilities (spec section 4.3) -/

/-- Modelled from the spec: a capability URI after parsing, split into its
base URI and its query parameters (name/value pairs).  The parsing of the
raw URI string is the external parser's job. -/
structure Capability where
  base : String
  params : List (String × String)
deriving DecidableEq

/-- The known with-defaults capability URI (RFC 6243). -/
def withDefaultsCapBase : String :=
  "urn:ietf:params:netconf:capability:with-defaults:1.0"

/-- Look up the value of a query parameter by name. -/
def paramLookup (name : String) : List (String × String) → Option String
  | [] => none
  | (k, v) :: rest => if k = name then some v else paramLookup name rest

/-- Modelled from the spec: mapping of the with-defaults `basic-mode`
query parameter to `NCWD_MODE`; anything else or absent maps to
`NCWD_MODE_NOTSET`. -/
def wdModeOfParam (o : Option String) : NCWD_MODE :=
  match o with
  | none => .NCWD_MODE_NOTSET
  | some s =>
    if s = "report-all" then .NCWD_MODE_ALL
    else if s = "trim" then .NCWD_MODE_TRIM
    else if s = "explicit" then .NCWD_MODE_EXPLICIT
    else if s = "report-all-tagged" then .NCWD_MODE_ALL_TAGGED
    else .NCWD_MODE_NOTSET

/-- Modelled from the spec: the with-defaults mode derived from a
capability set, recomputed as a pure function of the set: find the
with-defaults capability by its known base URI and map its `basic-mode`
parameter; an absent capability yields `NCWD_MODE_NOTSET`. -/
def withDefaultsMode (caps : List Capability) : NCWD_MODE :=
  match caps.find? (fun c => c.base = withDefaultsCapBase) with
  | none => .NCWD_MODE_NOTSET
  | some c => wdModeOfParam (paramLookup "basic-mode" c.params)

/-! ### Theorems -/

/-- C9: the session termination-reason type `NC_SESSION_TERM_REASON` has
exactly six variants: the five named reasons (closed, killed, dropped,
timeout, bad-hello) plus the catch-all `NC_SESSION_TERM_OTHER`, which is
distinct from each of the five, so a reader of a recorded termination
reason must handle this sixth value. -/
theorem term_reason_has_six_variants :
    (Finset.univ : Finset NC_SESSION_TERM_REASON) =
      {NC_SESSION_TERM_REASON.NC_SESSION_TERM_CLOSED,
       NC_SESSION_TERM_REASON.NC_SESSION_TERM_KILLED,
       NC_SESSION_TERM_REASON.NC_SESSION_TERM_DROPPED,
       NC_SESSION_TERM_REASON.NC_SESSION_TERM_TIMEOUT,
       NC_SESSION_TERM_REASON.NC_SESSION_TERM_BADHELLO,
       NC_SESSION_TERM_REASON.NC_SESSION_TERM_OTHER} ∧
    Fintype.card NC_SESSION_TERM_REASON = 6 ∧
    NC_SESSION_TERM_REASON.NC_SESSION_TERM_OTHER ≠
      NC_SESSION_TERM_REASON.NC_SESSION_TERM_CLOSED ∧
    NC_SESSION_TERM_REASON.NC_SESSION_TERM_OTHER ≠
      NC_SESSION_TERM_REASON.NC_SESSION_TERM_KILLED ∧
    NC_SESSION_TERM_REASON.NC_SESSION_TERM_OTHER ≠
      NC_SESSION_TERM_REASON.NC_SESSION_TERM_DROPPED ∧
    NC_SESSION_TERM_REASON.NC_SESSION_TERM_OTHER ≠
      NC_SESSION_TERM_REASON.NC_SESSION_TERM_TIMEOUT ∧
    NC_SESSION_TERM_REASON.NC_SESSION_TERM_OTHER ≠
      NC_SESSION_TERM_REASON.NC_SESSION_TERM_BADHELLO := by
  decide

/-- C10: each of the three edit-config policy enumerations carries an
internal Error value -1 distinct from its NotSet value 0 (each `toInt` map
is injective, so no two variants share a value), and the resolver keeps a
malformed policy element (resolving to Error) distinguishable from an
absent one (resolving to NotSet). -/
theorem edit_policy_error_distinct_from_notset :
    (NC_EDIT_DEFOP_TYPE.toInt .NC_EDIT_DEFOP_ERROR = -1 ∧
     NC_EDIT_DEFOP_TYPE.toInt .NC_EDIT_DEFOP_NOTSET = 0 ∧
     (∀ a b : NC_EDIT_DEFOP_TYPE, a.toInt = b.toInt → a = b)) ∧
    (NC_EDIT_ERROPT_TYPE.toInt .NC_EDIT_ERROPT_ERROR = -1 ∧
     NC_EDIT_ERROPT_TYPE.toInt .NC_EDIT_ERROPT_NOTSET = 0 ∧
     (∀ a b : NC_EDIT_ERROPT_TYPE, a.toInt = b.toInt → a = b)) ∧
    (NC_EDIT_TESTOPT_TYPE.toInt .NC_EDIT_TESTOPT_ERROR = -1 ∧
     NC_EDIT_TESTOPT_TYPE.toInt .NC_EDIT_TESTOPT_NOTSET = 0 ∧
     (∀ a b : NC_EDIT_TESTOPT_TYPE, a.toInt = b.toInt → a = b)) ∧
    (∀ s : String, s ∉ (["merge", "replace", "none"] : List String) →
      resolveDefop (some s) = .NC_EDIT_DEFOP_ERROR) ∧
    resolveDefop none = .NC_EDIT_DEFOP_NOTSET ∧
    (∀ s : String,
      s ∉ (["stop-on-error", "continue-on-error", "rollback-on-error"] : List String) →
      resolveErropt (some s) = .NC_EDIT_ERROPT_ERROR) ∧
    resolveErropt none = .NC_EDIT_ERROPT_NOTSET ∧
    (∀ s : String, s ∉ (["test-then-set", "set", "test-only"] : List String) →
      resolveTestopt (some s) = .NC_EDIT_TESTOPT_ERROR) ∧
    resolveTestopt none = .NC_EDIT_TESTOPT_NOTSET := by
  refine ⟨by decide, by decide, by decide, ?_, rfl, ?_, rfl, ?_, rfl⟩
  · intro s hs
    simp only [List.mem_cons, List.not_mem_nil, or_false, not_or] at hs
    obtain ⟨h1, h2, h3⟩ := hs
    simp [resolveDefop, h1, h2, h3]
  · intro s hs
    simp only [List.mem_cons, List.not_mem_nil, or_false, not_or] at hs
    obtain ⟨h1, h2, h3⟩ := hs
    simp [resolveErropt, h1, h2, h3]
  · intro s hs
    simp only [List.mem_cons, List.not_mem_nil, or_false, not_or] at hs
    obtain ⟨h1, h2, h3⟩ := hs
    simp [resolveTestopt, h1, h2, h3]

/-- C10 witness: a concrete malformed element resolves to the Error value
of each policy type. -/
theorem edit_policy_error_distinct_witness :
    resolveDefop (some "bogus") = .NC_EDIT_DEFOP_ERROR ∧
    resolveErropt (some "bogus") = .NC_EDIT_ERROPT_ERROR ∧
    resolveTestopt (some "bogus") = .NC_EDIT_TESTOPT_ERROR := by
  obtain ⟨-, -, -, hd, -, he, -, ht, -⟩ := edit_policy_error_distinct_from_notset
  exact ⟨hd "bogus" (by decide), he "bogus" (by decide), ht "bogus" (by decide)⟩

/-- C3: an edit-config request with all three policy elements absent
resolves to the triple (NotSet, NotSet, NotSet), and NotSet is distinct
from every concrete value (such as merge or stop-on-error) that could have
been substituted. -/
theorem absent_edit_policy_resolves_notset :
    resolveEditPolicy none none none =
      (.NC_EDIT_DEFOP_NOTSET, .NC_EDIT_ERROPT_NOTSET, .NC_EDIT_TESTOPT_NOTSET) ∧
    (NC_EDIT_DEFOP_TYPE.NC_EDIT_DEFOP_NOTSET ≠ .NC_EDIT_DEFOP_MERGE ∧
     NC_EDIT_DEFOP_TYPE.NC_EDIT_DEFOP_NOTSET ≠ .NC_EDIT_DEFOP_REPLACE ∧
     NC_EDIT_DEFOP_TYPE.NC_EDIT_DEFOP_NOTSET ≠ .NC_EDIT_DEFOP_NONE) ∧
    (NC_EDIT_ERROPT_TYPE.NC_EDIT_ERROPT_NOTSET ≠ .NC_EDIT_ERROPT_STOP ∧
     NC_EDIT_ERROPT_TYPE.NC_EDIT_ERROPT_NOTSET ≠ .NC_EDIT_ERROPT_CONT ∧
     NC_EDIT_ERROPT_TYPE.NC_EDIT_ERROPT_NOTSET ≠ .NC_EDIT_ERROPT_ROLLBACK) ∧
    (NC_EDIT_TESTOPT_TYPE.NC_EDIT_TESTOPT_NOTSET ≠ .NC_EDIT_TESTOPT_TESTSET ∧
     NC_EDIT_TESTOPT_TYPE.NC_EDIT_TESTOPT_NOTSET ≠ .NC_EDIT_TESTOPT_SET ∧
     NC_EDIT_TESTOPT_TYPE.NC_EDIT_TESTOPT_NOTSET ≠ .NC_EDIT_TESTOPT_TEST) := by
  decide

/-- C6 counterexample: the classification type `NC_RPC_TYPE` of the header
has exactly five values (Unknown, Hello, DatastoreRead, DatastoreWrite,
Session), so no distinct notification-control category exists for
create-subscription; the classifier places it in the session category. -/
theorem createsubscription_no_distinct_category :
    nc_rpc_get_type NC_OP.NC_OP_CREATESUBSCRIPTION = NC_RPC_TYPE.NC_RPC_SESSION ∧
    Fintype.card NC_RPC_TYPE = 5 ∧
    (Finset.univ : Finset NC_RPC_TYPE) =
      {NC_RPC_TYPE.NC_RPC_UNKNOWN, NC_RPC_TYPE.NC_RPC_HELLO,
       NC_RPC_TYPE.NC_RPC_DATASTORE_READ, NC_RPC_TYPE.NC_RPC_DATASTORE_WRITE,
       NC_RPC_TYPE.NC_RPC_SESSION} := by
  decide

/-- C6 (amended): get, get-config and get-schema classify as
DatastoreRead; edit-config, copy-config, delete-config, commit,
discard-changes, lock and unlock classify as DatastoreWrite; close-session
and kill-session classify as SessionAffecting; create-subscription also
classifies as SessionAffecting, since every `NC_RPC_TYPE` value is one of
Unknown, Hello, DatastoreRead, DatastoreWrite or Session and no distinct
notification-control category exists. -/
theorem rpc_type_classification :
    nc_rpc_get_type .NC_OP_GET = .NC_RPC_DATASTORE_READ ∧
    nc_rpc_get_type .NC_OP_GETCONFIG = .NC_RPC_DATASTORE_READ ∧
    nc_rpc_get_type .NC_OP_GETSCHEMA = .NC_RPC_DATASTORE_READ ∧
    nc_rpc_get_type .NC_OP_EDITCONFIG = .NC_RPC_DATASTORE_WRITE ∧
    nc_rpc_get_type .NC_OP_COPYCONFIG = .NC_RPC_DATASTORE_WRITE ∧
    nc_rpc_get_type .NC_OP_DELETECONFIG = .NC_RPC_DATASTORE_WRITE ∧
    nc_rpc_get_type .NC_OP_COMMIT = .NC_RPC_DATASTORE_WRITE ∧
    nc_rpc_get_type .NC_OP_DISCARDCHANGES = .NC_RPC_DATASTORE_WRITE ∧
    nc_rpc_get_type .NC_OP_LOCK = .NC_RPC_DATASTORE_WRITE ∧
    nc_rpc_get_type .NC_OP_UNLOCK = .NC_RPC_DATASTORE_WRITE ∧
    nc_rpc_get_type .NC_OP_CLOSESESSION = .NC_RPC_SESSION ∧
    nc_rpc_get_type .NC_OP_KILLSESSION = .NC_RPC_SESSION ∧
    nc_rpc_get_type .NC_OP_CREATESUBSCRIPTION = .NC_RPC_SESSION ∧
    (∀ t : NC_RPC_TYPE,
      t = .NC_RPC_UNKNOWN ∨ t = .NC_RPC_HELLO ∨ t = .NC_RPC_DATASTORE_READ ∨
      t = .NC_RPC_DATASTORE_WRITE ∨ t = .NC_RPC_SESSION) := by
  decide

/-- C1: every transition the session state machine performs lies on an
edge of section 4.1 (Startup to Working, Startup to Closed, Working to
Closing, Closing to Closed, any state to Error); a Dummy session never
transitions; and no event ever moves a Closed session to Working. -/
theorem session_status_transitions_follow_edges :
    (∀ (s : NC_SESSION_STATUS) (e : SessionEvent) (s2 : NC_SESSION_STATUS),
      sessionStep s e = some s2 → sessionEdgeAllowed s s2 = true) ∧
    (∀ e : SessionEvent, sessionStep .NC_SESSION_STATUS_DUMMY e = none) ∧
    (∀ (e : SessionEvent) (s2 : NC_SESSION_STATUS),
      sessionStep .NC_SESSION_STATUS_CLOSED e = some s2 →
      s2 ≠ .NC_SESSION_STATUS_WORKING) := by
  refine ⟨?_, ?_, ?_⟩
  · intro s e s2 h
    cases s <;> cases e <;>
      simp_all [sessionStep, sessionEdgeAllowed]
  · intro e
    cases e <;> rfl
  · intro e s2 h
    cases e with
    | helloOk => simp [sessionStep] at h
    | helloFail => simp [sessionStep] at h
    | closeRequest r => simp [sessionStep] at h
    | cleanupDone => simp [sessionStep] at h
    | internalFault =>
        simp only [sessionStep, Option.some.injEq] at h
        rw [← h]
        decide

/-- C1 witness: the hello-success transition from Startup to Working is on
an allowed edge, a Dummy session ignores an internal fault, and the only
transition out of Closed (an internal fault) does not reach Working. -/
theorem session_status_transitions_witness :
    sessionEdgeAllowed .NC_SESSION_STATUS_STARTUP .NC_SESSION_STATUS_WORKING = true ∧
    sessionStep .NC_SESSION_STATUS_DUMMY SessionEvent.internalFault = none ∧
    NC_SESSION_STATUS.NC_SESSION_STATUS_ERROR ≠
      NC_SESSION_STATUS.NC_SESSION_STATUS_WORKING :=
  ⟨session_status_transitions_follow_edges.1 _ SessionEvent.helloOk _ rfl,
   session_status_transitions_follow_edges.2.1 SessionEvent.internalFault,
   session_status_transitions_follow_edges.2.2 SessionEvent.internalFault _ rfl⟩

/-- In a run of non-fatal `nc_init` calls starting from a state some
participant already initialized, no call observes the first-initializer
outcome 0. -/
theorem runInits_count_zero_of_pos (calls : List Bool) (st : SharedState)
    (hpos : 1 ≤ st.refs) (hall : ∀ f ∈ calls, f = false) :
    (runInits calls st).count 0 = 0 := by
  induction calls generalizing st with
  | nil => rfl
  | cons f rest ih =>
    have hf : f = false := hall f (List.mem_cons_self f rest)
    have hne : st.refs ≠ 0 := by omega
    have hrest : ∀ g ∈ rest, g = false := fun g hg =>
      hall g (List.mem_cons_of_mem f hg)
    subst hf
    simp only [runInits, ncInit, if_neg (Bool.false_ne_true), if_neg hne]
    rw [List.count_cons]
    have : (runInits rest { refs := st.refs + 1 }).count 0 = 0 :=
      ih { refs := st.refs + 1 } (show 1 ≤ st.refs + 1 by omega) hrest
    simp [this]

/-- C2: `nc_init` returns exactly one of -1 (fatal error), 0 (first
initializer) or 1 (already initialized); and in any nonempty sequence of
calls without a fatal error, starting from the fresh epoch state with a
zero shared reference count, exactly one call observes outcome 0. -/
theorem init_exactly_one_first :
    (∀ (f : Bool) (st : SharedState),
      (ncInit f st).1 = -1 ∨ (ncInit f st).1 = 0 ∨ (ncInit f st).1 = 1) ∧
    (∀ calls : List Bool, calls ≠ [] → (∀ f ∈ calls, f = false) →
      (runInits calls { refs := 0 }).count 0 = 1) := by
  constructor
  · intro f st
    by_cases hf : f
    · simp [ncInit, hf]
    · by_cases h0 : st.refs = 0 <;> simp [ncInit, hf, h0]
  · intro calls hne hall
    match calls with
    | [] => exact absurd rfl hne
    | f :: rest =>
      have hf : f = false := hall f (List.mem_cons_self f rest)
      have hrest : ∀ g ∈ rest, g = false := fun g hg =>
        hall g (List.mem_cons_of_mem f hg)
      subst hf
      simp only [runInits, ncInit, if_neg (Bool.false_ne_true), if_pos rfl]
      rw [List.count_cons]
      have : (runInits rest { refs := 1 }).count 0 = 0 :=
        runInits_count_zero_of_pos rest { refs := 1 }
          (show (1 : Int) ≤ 1 by omega) hrest
      simp [this]

/-- C2 witness: two non-fatal calls in one epoch; the return code is one
of the three outcomes and exactly one of the two calls observes 0. -/
theorem init_exactly_one_first_witness :
    ((ncInit false { refs := 0 }).1 = -1 ∨ (ncInit false { refs := 0 }).1 = 0 ∨
      (ncInit false { refs := 0 }).1 = 1) ∧
    (runInits [false, false] { refs := 0 }).count 0 = 1 :=
  ⟨init_exactly_one_first.1 false { refs := 0 },
   init_exactly_one_first.2 [false, false] (by decide) (by decide)⟩

/-- C4: `nc_close` always releases the calling participant's local
reference (the participant is unregistered afterwards, whatever the mode);
and after a teardown by a registered participant, an immediate second
teardown with system-wide not requested leaves the shared reference count
unchanged, so the count stays at or above zero and is never decremented
below zero. -/
theorem close_releases_and_is_idempotent :
    (∀ (sys : Bool) (st : CloseState), ((ncClose sys st).2).registered = false) ∧
    (∀ (sys : Bool) (st : CloseState), st.registered = true → 1 ≤ st.refs →
      0 ≤ ((ncClose sys st).2).refs ∧
      (ncClose false (ncClose sys st).2).2.refs = ((ncClose sys st).2).refs ∧
      0 ≤ (ncClose false (ncClose sys st).2).2.refs) := by
  constructor
  · intro sys st
    by_cases h : st.registered <;> simp [ncClose, h]
  · intro sys st hreg hone
    refine ⟨?_, ?_, ?_⟩ <;> simp [ncClose, hreg] <;> omega

/-- C4 witness: a sole registered participant with one shared reference
closes locally; the count drops to zero and a second local close leaves it
untouched, never below zero. -/
theorem close_releases_witness :
    0 ≤ ((ncClose false { registered := true, refs := 1 }).2).refs ∧
    (ncClose false (ncClose false { registered := true, refs := 1 }).2).2.refs =
      ((ncClose false { registered := true, refs := 1 }).2).refs ∧
    0 ≤ (ncClose false (ncClose false { registered := true, refs := 1 }).2).2.refs :=
  close_releases_and_is_idempotent.2 false { registered := true, refs := 1 }
    rfl (by norm_num)

/-- C5: the with-defaults mode is a pure function of the capability set:
when no capability in the set has the with-defaults base URI the mode is
NotSet; when the capability is found the mode is exactly the mapping of
its `basic-mode` parameter, with "trim", "report-all", "explicit" and
"report-all-tagged" resolving to Trim, All, Explicit and AllTagged, and
any other or absent parameter value resolving to NotSet. -/
theorem withdefaults_mode_of_caps :
    (∀ caps : List Capability, (∀ c ∈ caps, c.base ≠ withDefaultsCapBase) →
      withDefaultsMode caps = .NCWD_MODE_NOTSET) ∧
    (∀ (caps : List Capability) (c : Capability),
      caps.find? (fun k => k.base = withDefaultsCapBase) = some c →
      withDefaultsMode caps = wdModeOfParam (paramLookup "basic-mode" c.params)) ∧
    wdModeOfParam (some "trim") = .NCWD_MODE_TRIM ∧
    wdModeOfParam (some "report-all") = .NCWD_MODE_ALL ∧
    wdModeOfParam (some "explicit") = .NCWD_MODE_EXPLICIT ∧
    wdModeOfParam (some "report-all-tagged") = .NCWD_MODE_ALL_TAGGED ∧
    wdModeOfParam none = .NCWD_MODE_NOTSET ∧
    (∀ s : String,
      s ∉ (["report-all", "trim", "explicit", "report-all-tagged"] : List String) →
      wdModeOfParam (some s) = .NCWD_MODE_NOTSET) := by
  refine ⟨?_, ?_, rfl, rfl, rfl, rfl, rfl, ?_⟩
  · intro caps h
    have hf : caps.find? (fun k => k.base = withDefaultsCapBase) = none := by
      rw [List.find?_eq_none]
      intro k hk
      simp [h k hk]
    simp [withDefaultsMode, hf]
  · intro caps c hc
    simp [withDefaultsMode, hc]
  · intro s hs
    simp only [List.mem_cons, List.not_mem_nil, or_false, not_or] at hs
    obtain ⟨h1, h2, h3, h4⟩ := hs
    simp [wdModeOfParam, h1, h2, h3, h4]

/-- C5 witness: an empty capability set resolves to NotSet, and a set
holding the with-defaults capability with basic-mode trim resolves to
Trim. -/
theorem withdefaults_mode_witness :
    withDefaultsMode [] = NCWD_MODE.NCWD_MODE_NOTSET ∧
    withDefaultsMode
        [{ base := withDefaultsCapBase, params := [("basic-mode", "trim")] }] =
      NCWD_MODE.NCWD_MODE_TRIM := by
  constructor
  · exact withdefaults_mode_of_caps.1 [] (by simp)
  · exact (withdefaults_mode_of_caps.2.1
      [{ base := withDefaultsCapBase, params := [("basic-mode", "trim")] }]
      { base := withDefaultsCapBase, params := [("basic-mode", "trim")] }
      (by decide)).trans rfl

/-- C7: rpc classification is total and yields Unknown as an ordinary
value: an empty list of operation-indicating children, or more than one,
classifies to the Unknown message value; a single child with an
unrecognized element name classifies the message as Rpc with the Unknown
operation value; and every input classifies to either Rpc or Unknown, so
no input is a fault. -/
theorem rpc_classification_total :
    classifyRpc [] = (.NC_MSG_UNKNOWN, .NC_OP_UNKNOWN) ∧
    (∀ (c1 c2 : String) (rest : List String),
      classifyRpc (c1 :: c2 :: rest) = (.NC_MSG_UNKNOWN, .NC_OP_UNKNOWN)) ∧
    (∀ name : String, name ∉ recognizedOpNames →
      classifyRpc [name] = (.NC_MSG_RPC, .NC_OP_UNKNOWN)) ∧
    (∀ children : List String,
      (classifyRpc children).1 = .NC_MSG_RPC ∨
      (classifyRpc children).1 = .NC_MSG_UNKNOWN) := by
  refine ⟨rfl, fun c1 c2 rest => rfl, ?_, ?_⟩
  · intro name h
    simp only [recognizedOpNames, List.mem_cons, List.not_mem_nil, or_false,
      not_or] at h
    obtain ⟨h1, h2, h3, h4, h5, h6, h7, h8, h9, h10, h11, h12, h13⟩ := h
    simp [classifyRpc, opOfName, h1, h2, h3, h4, h5, h6, h7, h8, h9, h10,
      h11, h12, h13]
  · intro children
    match children with
    | [] => exact Or.inr rfl
    | [name] => exact Or.inl rfl
    | c1 :: c2 :: rest => exact Or.inr rfl

/-- C7 witness: a childless tree and a tree with two children classify to
Unknown, and a single child with the unrecognized name "foo" yields the
Unknown operation, all as ordinary values. -/
theorem rpc_classification_total_witness :
    classifyRpc [] = (.NC_MSG_UNKNOWN, .NC_OP_UNKNOWN) ∧
    classifyRpc ["get", "get-config"] = (.NC_MSG_UNKNOWN, .NC_OP_UNKNOWN) ∧
    classifyRpc ["foo"] = (.NC_MSG_RPC, .NC_OP_UNKNOWN) :=
  ⟨rpc_classification_total.1,
   rpc_classification_total.2.1 "get" "get-config" [],
   rpc_classification_total.2.2.1 "foo" (by decide)⟩

/-- C8: the recovery principal defaults to uid 0 when never set, whatever
flags initialization used; the recovery principal always bypasses the
access-control evaluation regardless of the external policy; and
`nacm_recovery_uid` has an effect exactly when the `NC_INIT_NACM` flag was
requested in `nc_init` (no state change when the subsystem is disabled,
the uid updated when it is enabled). -/
theorem nacm_recovery_uid_gating :
    (∀ flags : Nat, (nacmInitState flags).recoveryUid = 0) ∧
    (∀ (policy : Nat → NC_OP → Bool) (op : NC_OP) (st : NacmState),
      nacmPermits policy st.recoveryUid op st = true) ∧
    (∀ (uid : Nat) (st : NacmState), st.nacmEnabled = false →
      nacm_recovery_uid uid st = st) ∧
    (∀ (uid : Nat) (st : NacmState), st.nacmEnabled = true →
      (nacm_recovery_uid uid st).recoveryUid = uid) ∧
    (∀ flags : Nat,
      (nacmInitState flags).nacmEnabled = true ↔ Nat.land flags NC_INIT_NACM ≠ 0) := by
  refine ⟨fun flags => rfl, ?_, ?_, ?_, ?_⟩
  · intro policy op st
    simp [nacmPermits]
  · intro uid st h
    simp [nacm_recovery_uid, h]
  · intro uid st h
    simp [nacm_recovery_uid, h]
  · intro flags
    simp [nacmInitState]

/-- C8 witness: at initialization without the NACM flag, setting the
recovery uid is a no-op; with the flag, the uid is updated; the default
recovery uid 0 is always permitted by the gate. -/
theorem nacm_recovery_uid_gating_witness :
    nacm_recovery_uid 1000 (nacmInitState 0) = nacmInitState 0 ∧
    (nacm_recovery_uid 1000 (nacmInitState NC_INIT_NACM)).recoveryUid = 1000 ∧
    nacmPermits (fun _ _ => false) (nacmInitState 0).recoveryUid
      NC_OP.NC_OP_EDITCONFIG (nacmInitState 0) = true :=
  ⟨nacm_recovery_uid_gating.2.2.1 1000 (nacmInitState 0) (by decide),
   nacm_recovery_uid_gating.2.2.2.1 1000 (nacmInitState NC_INIT_NACM) (by decide),
   nacm_recovery_uid_gating.2.1 (fun _ _ => false) NC_OP.NC_OP_EDITCONFIG
     (nacmInitState 0)⟩

end Libnetconf
